import Mathlib

/-!
# Verification of the RAG orchestration/correlation layer

Shallow embedding of `src/api_service/api/service.py`: the in-memory
correlation store (`QueryStorage`), the URL-lookup endpoint (`get_urls`),
the background URL extraction (`process_url_extraction`), the sitemap URL
normalization shared by the `sitemap` and `scrape_sitemap` endpoints, the
scrape-and-ingest streaming generator (`scraping_process`), the token
forwarding generator (`process_streaming_response`), and the request-body
validation helper (`check_required`).

External collaborators (Weaviate, GCS blob store, the HTML scraper, the
sitemap parser) are modelled as oracle parameters of the embedded
functions, exactly at the call boundaries the source uses.
-/

namespace RagService

/-! ## Correlation store (`QueryStorage`)

The Python class keeps `_storage : dict` mapping a query id to its URL
list, guarded by an asyncio lock.  The lock only serializes individual
map operations, so each operation is a pure state transformer on the map;
we model the dict as a partial map `String → Option (List String)`. -/

/-- The state of `QueryStorage._storage`: a partial map from query ids to
URL lists (Python `dict`). -/
def StorageState : Type := String → Option (List String)

/-- The empty storage, as built by `QueryStorage.__init__`. -/
def emptyStorage : StorageState := fun _ => none

/-- `QueryStorage.store_query`: `self._storage[query_id] = urls` —
stores/overwrites the entry for `query_id`. -/
def store_query (s : StorageState) (query_id : String) (urls : List String) :
    StorageState :=
  fun k => if k = query_id then some urls else s k

/-- `QueryStorage.retrieve_query`: `self._storage.pop(query_id, [])` —
returns the stored list (or `[]` when absent) and removes the entry. -/
def retrieve_query (s : StorageState) (query_id : String) :
    List String × StorageState :=
  ((s query_id).getD [], fun k => if k = query_id then none else s k)

/-! ## URL-lookup endpoint (`get_urls`)

The endpoint calls `retrieve_query` and then tests `if urls is None` to
decide between the 404 `JSONResponse` and the success body
`{"urls": urls}`.  `retrieve_query` returns a Python *list* (the `pop`
default is `[]`), so the value bound to `urls` is never `None`; the
embedding records that by wrapping the list in `some` before the match,
mirroring the dead branch of the source. -/

/-- Responses of `GET /get_urls/{query_id}`: `ok urls` is the HTTP 200
body `{"urls": urls}`; `notAvailable` is the 404 `JSONResponse`
`{"error": "URLs not available yet or invalid query ID"}`. -/
inductive UrlsResponse where
  | ok (urls : List String)
  | notAvailable
deriving DecidableEq

/-- The `get_urls` endpoint body: retrieve (and delete) the entry, then
branch on `urls is None`. -/
def get_urls (s : StorageState) (query_id : String) :
    UrlsResponse × StorageState :=
  let r := retrieve_query s query_id
  -- Python: `urls` holds the value returned by `retrieve_query`, which is
  -- always a list (never `None`), so the `is None` test sees `some _`.
  let urls : Option (List String) := some r.1
  (match urls with
   | none => UrlsResponse.notAvailable
   | some u => UrlsResponse.ok u,
   r.2)

/-! ## Background URL extraction (`process_url_extraction`)

The loop
`for url in extracted_urls: if url not in unique_urls: unique_urls.append(url)`
is a left fold appending each first-seen URL. -/

/-- One iteration of the de-duplication loop in `process_url_extraction`. -/
def uniqueStep (acc : List String) (url : String) : List String :=
  if url ∈ acc then acc else acc ++ [url]

/-- The `unique_urls` list built by `process_url_extraction` from the
extracted URL sequence. -/
def uniqueUrls (extracted_urls : List String) : List String :=
  extracted_urls.foldl uniqueStep []

/-- `process_url_extraction`: de-duplicate the extracted URLs preserving
first-seen order, then `store_query` the result under `query_id`. -/
def process_url_extraction (query_id : String) (extracted_urls : List String)
    (s : StorageState) : StorageState :=
  store_query s query_id (uniqueUrls extracted_urls)

/-! ## Sitemap URL normalization

Both `sitemap` (GET) and `scrape_sitemap` (POST) run the same two steps
on the user-supplied website string:

    if "https://" not in sitemap: sitemap = f"https://{sitemap}"
    if "sitemap.xml" not in sitemap:
        if sitemap[-1] != '/': sitemap = f"{sitemap}/sitemap.xml"
        else:                  sitemap = f"{sitemap}sitemap.xml"

Python's `in` on strings is contiguous-substring containment over code
points; we model it with explicit char-list helpers (which the kernel can
evaluate). -/

/-- Does the second char list start with the first?  Models Python
`str.startswith` over code points. -/
def charsStarts : List Char → List Char → Bool
  | [], _ => true
  | _ :: _, [] => false
  | a :: as, b :: bs => a == b && charsStarts as bs

/-- Does `n` occur as a contiguous substring of the second list?  Models
Python's `n in s` for strings. -/
def charsHasSub (n : List Char) : List Char → Bool
  | [] => n.isEmpty
  | b :: t => charsStarts n (b :: t) || charsHasSub n t

/-- Python `needle in hay` on strings. -/
def pyIn (needle hay : String) : Bool := charsHasSub needle.data hay.data

/-- Python `s[-1]` (the last code point).  Both call sites apply it to a
string that is provably non-empty (it either contains `"https://"` or has
just had it prepended), so the default char is never consulted. -/
def pyLastChar (s : String) : Char := s.data.getLastD ' '

/-- The sitemap-URL normalization performed identically at the start of
the `sitemap` endpoint (lines 402-410) and the `scrape_sitemap` endpoint
(lines 463-470). -/
def sitemapNormalize (website : String) : String :=
  let sitemap := if pyIn "https://" website then website
                 else "https://" ++ website
  if pyIn "sitemap.xml" sitemap then sitemap
  else if pyLastChar sitemap ≠ '/' then sitemap ++ "/sitemap.xml"
  else sitemap ++ "sitemap.xml"

/-- The amended normalization rule of C4, stated from the spec's steps
with both tests read as substring containment (Python `in`), which is
what the source computes: prepend `"https://"` when the string does not
contain it anywhere; if the string does not contain `"sitemap.xml"`
anywhere, append it, with a `/` separator unless the string already ends
in `/`. -/
def sitemapNormalizeAmended (website : String) : String :=
  let withScheme := if charsHasSub "https://".data website.data then website
                    else "https://" ++ website
  if charsHasSub "sitemap.xml".data withScheme.data then withScheme
  else if pyLastChar withScheme = '/' then withScheme ++ "sitemap.xml"
  else withScheme ++ "/sitemap.xml"

/-! ## Scrape-and-ingest pipeline (`scrape_sitemap.scraping_process`)

`scrape_sitemap` normalizes the website string, resolves the sitemap
(`helper.get_sitemap_attributes` — external, modelled by the resolved page
list), computes `website_name = sitemap.split('/')[2]`, and returns a
`StreamingResponse` over the generator `scraping_process`.  The external
effects (`helper.scrape_link`, `helper.save_to_gcloud`,
`helper.download_blob_from_gcloud`, `helper.store_to_weaviate`) are oracle
fields of the environment, and the run is summarized by the yielded
stream, the assembled table, the server-side prints, and which gateway
calls happened. -/

/-- Python `sitemap.split('/')` over code points (non-empty separator,
keeps empty pieces). -/
def splitOnSlash : List Char → List (List Char)
  | [] => [[]]
  | c :: t =>
    if c = '/' then [] :: splitOnSlash t
    else
      match splitOnSlash t with
      | [] => [[c]]
      | h :: r => (c :: h) :: r

/-- `website_name = sitemap.split('/')[2]` (always in range: the
normalized sitemap string contains `"https://"` and hence two slashes). -/
def websiteNameOf (sitemap : String) : String :=
  String.mk ((splitOnSlash sitemap.data).getD 2 [])

/-- The relative-link qualification at the top of the page loop:
`if item.startswith('/'): item = f"https://{website_name}{item}"`. -/
def qualifyItem (website_name item : String) : String :=
  if charsStarts "/".data item.data then "https://" ++ website_name ++ item
  else item

/-- Python dict assignment `d[k] = v` on an insertion-ordered dict
represented as an association list: overwrite in place if `k` is present,
else append. -/
def dictInsert (d : List (String × String)) (k v : String) :
    List (String × String) :=
  if k ∈ d.map Prod.fst then
    d.map (fun p => if p.1 = k then (k, v) else p)
  else d ++ [(k, v)]

/-- The progress header `f"{i} of {total}: {item}\n"` yielded before each
page attempt. -/
def headerLine (i total : Nat) (item : String) : String :=
  toString i ++ " of " ++ toString total ++ ": " ++ item ++ "\n"

/-- The per-page failure notice `f"Failed to scrape {item}: {e}\n"`. -/
def failLine (item e : String) : String :=
  "Failed to scrape " ++ item ++ ": " ++ e ++ "\n"

/-- The per-page loop of `scraping_process`: `i` is the pages attempted so
far, `text_dict` the accumulated table.  Yields the numbered header line
before each attempt; on a scraping fault yields the failure line and
continues; on success stores `text_dict[item] = scraped_data[item]`.
Returns the yielded lines and the final table. -/
def scrapeLoop (website_name : String) (total : Nat)
    (scrape_link : String → Except String String) (i : Nat)
    (text_dict : List (String × String)) :
    List String → List String × List (String × String)
  | [] => ([], text_dict)
  | item0 :: rest =>
    let item := qualifyItem website_name item0
    match scrape_link item with
    | Except.ok text =>
      let r := scrapeLoop website_name total scrape_link (i + 1)
        (dictInsert text_dict item text) rest
      (headerLine (i + 1) total item :: r.1, r.2)
    | Except.error e =>
      let r := scrapeLoop website_name total scrape_link (i + 1) text_dict rest
      (headerLine (i + 1) total item :: failLine item e :: r.1, r.2)

/-- Environment of one `scrape_sitemap` run: the request's website string,
the page list the sitemap resolved to, and the outcomes of the external
collaborators. -/
structure ScrapeEnv where
  website : String
  pages : List String
  scrape_link : String → Except String String
  save_to_gcloud : Bool
  download_blob : Bool
  store_updates : List String

/-- Observable summary of one run of the `scraping_process` generator:
the streamed lines, the assembled `(url, text)` table, the server-side
`print` output, and which external calls were made. -/
structure ScrapeRun where
  stream : List String
  table : List (String × String)
  log : List String
  persistCalled : Bool
  downloadCalled : Bool
  ingestCalled : Bool

/-- The unconditional last yield of `scraping_process`. -/
def finalLine : String := "All steps completed successfully.\n"

/-- The `scraping_process` generator of `scrape_sitemap`, lines 478-516 of
the source, as a function from the run environment to its observable
summary. -/
def scraping_process (env : ScrapeEnv) : ScrapeRun :=
  let sitemap := sitemapNormalize env.website
  let website_name := websiteNameOf sitemap
  if env.pages.length = 0 then
    { stream := ["Found 0 pages to scrape in " ++ sitemap ++ "\n", finalLine]
      table := [], log := []
      persistCalled := false, downloadCalled := false, ingestCalled := false }
  else
    let r := scrapeLoop website_name env.pages.length env.scrape_link 0 []
      env.pages
    if env.save_to_gcloud then
      if env.download_blob then
        { stream := r.1 ++ ["Finished saving to GCP Bucket\n",
            "Chunking and preparing documents to insert into vector store.\n"]
            ++ env.store_updates ++ [finalLine]
          table := r.2, log := []
          persistCalled := true, downloadCalled := true, ingestCalled := true }
      else
        { stream := r.1 ++ ["Finished saving to GCP Bucket\n", finalLine]
          table := r.2
          log := ["Error occured while downloading file to gcloud bucket.\n"]
          persistCalled := true, downloadCalled := true, ingestCalled := false }
    else
      { stream := r.1 ++
          ["The scraping process did not complete as expected for " ++
            sitemap ++ "\n", finalLine]
        table := r.2, log := []
        persistCalled := true, downloadCalled := false, ingestCalled := false }

/-- The `website_name` the generator captures:
`sitemap.split('/')[2]` of the normalized sitemap URL. -/
def scrapeSiteName (env : ScrapeEnv) : String :=
  websiteNameOf (sitemapNormalize env.website)

/-- The lines yielded by the page loop alone, independent of the
accumulated table (used to reason about `scrapeLoop`). -/
def pageLines (website_name : String) (total : Nat)
    (scrape_link : String → Except String String) (i : Nat) :
    List String → List String
  | [] => []
  | item0 :: rest =>
    let item := qualifyItem website_name item0
    (match scrape_link item with
     | Except.ok _ => [headerLine (i + 1) total item]
     | Except.error e => [headerLine (i + 1) total item, failLine item e])
    ++ pageLines website_name total scrape_link (i + 1) rest

/-- The table assembled by the page loop alone (used to reason about
`scrapeLoop`). -/
def tableOf (website_name : String)
    (scrape_link : String → Except String String)
    (text_dict : List (String × String)) :
    List String → List (String × String)
  | [] => text_dict
  | item0 :: rest =>
    let item := qualifyItem website_name item0
    match scrape_link item with
    | Except.ok text =>
      tableOf website_name scrape_link (dictInsert text_dict item text) rest
    | Except.error _ => tableOf website_name scrape_link text_dict rest

/-- A concrete three-page run in which scraping page 2 faults (the spec's
own example scenario); persist, reload and ingestion all succeed. -/
def envThreePages : ScrapeEnv :=
  { website := "a.com"
    pages := ["https://a.com/1", "https://a.com/2", "https://a.com/3"]
    scrape_link := fun u =>
      if u = "https://a.com/2" then Except.error "boom"
      else Except.ok ("text of " ++ u)
    save_to_gcloud := true
    download_blob := true
    store_updates := ["inserted chunk 1\n"] }

/-- A concrete one-page run in which persisting to the blob store
succeeds but reloading the persisted file fails. -/
def envReloadFail : ScrapeEnv :=
  { website := "a.com"
    pages := ["https://a.com/x"]
    scrape_link := fun _ => Except.ok "body"
    save_to_gcloud := true
    download_blob := false
    store_updates := [] }

/-- A concrete one-page run in which persisting to the blob store
fails. -/
def envPersistFail : ScrapeEnv :=
  { website := "a.com"
    pages := ["https://a.com/x"]
    scrape_link := fun _ => Except.ok "body"
    save_to_gcloud := false
    download_blob := false
    store_updates := [] }

/-- A concrete run whose sitemap resolution yields zero pages. -/
def envZeroPages : ScrapeEnv :=
  { website := "a.com"
    pages := []
    scrape_link := fun _ => Except.error "unreachable"
    save_to_gcloud := false
    download_blob := false
    store_updates := [] }

/-! ## Token forwarding (`process_streaming_response`)

The generator iterates `local_streaming_response.response_gen`, yields
each truthy token (`if text:` skips `None` and `""`), and catches
`asyncio.CancelledError`, ending the generator cleanly.  A run of the
producing generator is a list of events: produced tokens, possibly cut by
a cancellation raised at some point of the iteration. -/

/-- One event observed by the forwarding loop: a produced token (possibly
`None` or empty), or `asyncio.CancelledError` raised at this point. -/
inductive StreamEvent where
  | token (t : Option String)
  | cancelled

/-- `process_streaming_response`: forward every truthy token in order;
on cancellation stop immediately and return (the `except` clause) — the
result is always a plain list of forwarded tokens, never an error. -/
def process_streaming_response : List StreamEvent → List String
  | [] => []
  | StreamEvent.token t :: rest =>
    (match t with
     | some text => if text ≠ "" then [text] else []
     | none => []) ++ process_streaming_response rest
  | StreamEvent.cancelled :: _ => []

/-- The non-empty, non-null tokens of a produced sequence, in production
order (the reference behaviour the forwarding loop should implement). -/
def truthyTokens (tokens : List (Option String)) : List String :=
  tokens.filterMap (fun t =>
    match t with
    | some text => if text ≠ "" then some text else none
    | none => none)

/-! ## Request validation (`check_required`) and the `scrape_sitemap`
request phase

`check_required` raises `HTTPException(400, ...)` at the first missing (or
falsy) required field; the source contains the loop twice, verbatim.
`scrape_sitemap` performs no such check: it runs `data.get('text')` and
immediately evaluates `"https://" not in sitemap`, which on `None` raises
an uncaught `TypeError`. -/

/-- A fault escaping a request handler: a deliberately raised
`HTTPException` (FastAPI turns it into a response with that status), or an
unhandled Python `TypeError` (a 500-class server error). -/
inductive RequestFault where
  | httpException (status : Nat) (detail : String)
  | typeError (msg : String)
deriving DecidableEq

/-- Python truthiness of `data.get(key)` for string-valued JSON fields:
missing (`None`) and the empty string are falsy. -/
def pyTruthy : Option String → Bool
  | none => false
  | some s => s != ""

/-- One pass of the `for key in keys` loop of `check_required`. -/
def checkLoop (data : List (String × String)) :
    List String → Except RequestFault Unit
  | [] => Except.ok ()
  | key :: rest =>
    if pyTruthy (data.lookup key) then checkLoop data rest
    else Except.error (RequestFault.httpException 400
      ("Missing required field: '" ++ key ++ "'"))

/-- `check_required` (lines 183-204): the source runs the identical loop
twice; the second pass is reached only when the first raised nothing. -/
def check_required (data : List (String × String)) (keys : List String) :
    Except RequestFault Unit :=
  match checkLoop data keys with
  | Except.ok _ => checkLoop data keys
  | Except.error e => Except.error e

/-- The request phase of `scrape_sitemap` (lines 460-470): read
`data.get('text')` with no validation, then normalize.  When the field is
absent the value is `None`, and `"https://" not in sitemap` raises a
`TypeError` that nothing catches. -/
def scrape_sitemap_request (data : List (String × String)) :
    Except RequestFault String :=
  match data.lookup "text" with
  | none => Except.error
      (RequestFault.typeError "argument of type 'NoneType' is not iterable")
  | some t => Except.ok (sitemapNormalize t)

/-! # Theorems -/

/-- C2: `take(id)` after `put(id, urls)` returns exactly `urls` and
removes the entry, so an immediately following second `take(id)` returns
the empty result; `put` is a total function (never fails) and overwrites,
so `put(id, u1)` then `put(id, u2)` equals `put(id, u2)` alone. -/
theorem c2_store_take_put (s : StorageState) (id : String)
    (urls u1 u2 : List String) :
    (retrieve_query (store_query s id urls) id).1 = urls
    ∧ (retrieve_query (store_query s id urls) id).2 id = none
    ∧ (retrieve_query ((retrieve_query (store_query s id urls) id).2) id).1
        = []
    ∧ store_query (store_query s id u1) id u2 = store_query s id u2 := by
  refine ⟨?_, ?_, ?_, ?_⟩
  · simp [retrieve_query, store_query]
  · simp [retrieve_query]
  · simp [retrieve_query]
  · funext k
    by_cases h : k = id <;> simp [store_query, h]

/-- C1 (code bug): for an identifier absent from the store — never
created or already consumed — `get_urls` returns the success body
`{"urls": []}`, not the 404 "not available" response; in fact the 404
branch is unreachable for every input, because `retrieve_query` returns
`pop(query_id, [])`, never `None`.  This contradicts both the claim and
the endpoint's own docstring. -/
theorem c1_get_urls_absent_returns_success (s : StorageState)
    (query_id : String) (h : s query_id = none) :
    (get_urls s query_id).1 = UrlsResponse.ok []
    ∧ ∀ (s' : StorageState) (q' : String),
        (get_urls s' q').1 ≠ UrlsResponse.notAvailable := by
  refine ⟨?_, ?_⟩
  · simp [get_urls, retrieve_query, h]
  · intro s' q'
    simp [get_urls]

/-- Witness for C1: the empty store with a concrete identifier. -/
theorem c1_get_urls_absent_returns_success_witness :
    emptyStorage "deadbeef" = none
    ∧ ((get_urls emptyStorage "deadbeef").1 = UrlsResponse.ok []
       ∧ ∀ (s' : StorageState) (q' : String),
           (get_urls s' q').1 ≠ UrlsResponse.notAvailable) :=
  ⟨rfl, c1_get_urls_absent_returns_success emptyStorage "deadbeef" rfl⟩

/-- C4 (counterexample): the claim reads the scheme test as a *prefix*
test.  The input `"foohttps://"` does not start with `"https://"`, so per
the claim the scheme would be prepended and the result would start with
`"https://"`; the code tests substring containment, prepends nothing, and
returns `"foohttps://sitemap.xml"`, which does not start with the
scheme. -/
theorem c4_counterexample_contains_not_startswith :
    charsStarts "https://".data "foohttps://".data = false
    ∧ sitemapNormalize "foohttps://" = "foohttps://sitemap.xml"
    ∧ charsStarts "https://".data
        (sitemapNormalize "foohttps://").data = false := by
  refine ⟨by decide, by decide, by decide⟩

/-- C4 (amended): normalization prepends `"https://"` exactly when the
string does not *contain* it, then appends `sitemap.xml` exactly when the
string does not contain it, with `/sitemap.xml` unless the string ends in
`/`; the four example mappings of the claim all hold. -/
theorem c4_sitemap_normalization (website : String) :
    sitemapNormalize website = sitemapNormalizeAmended website
    ∧ sitemapNormalize "ai21.com" = "https://ai21.com/sitemap.xml"
    ∧ sitemapNormalize "https://ai21.com" = "https://ai21.com/sitemap.xml"
    ∧ sitemapNormalize "https://ai21.com/sitemap.xml"
        = "https://ai21.com/sitemap.xml"
    ∧ sitemapNormalize "ai21.com/" = "https://ai21.com/sitemap.xml" := by
  refine ⟨?_, by decide, by decide, by decide, by decide⟩
  unfold sitemapNormalize sitemapNormalizeAmended pyIn
  split_ifs <;> simp_all

/-! ### De-duplication lemmas for C5 -/

theorem uniqueStep_mem {acc : List String} {url x : String} :
    x ∈ uniqueStep acc url ↔ x ∈ acc ∨ x = url := by
  unfold uniqueStep
  split_ifs with h
  · exact ⟨Or.inl, fun hx => hx.elim id (fun he => he ▸ h)⟩
  · simp

theorem foldl_uniqueStep_mem (xs : List String) :
    ∀ (acc : List String) (x : String),
      x ∈ xs.foldl uniqueStep acc ↔ x ∈ acc ∨ x ∈ xs := by
  induction xs with
  | nil => intro acc x; simp
  | cons a rest ih =>
    intro acc x
    rw [List.foldl_cons, ih, uniqueStep_mem]
    simp only [List.mem_cons]
    tauto

theorem uniqueStep_nodup {acc : List String} (h : acc.Nodup) (url : String) :
    (uniqueStep acc url).Nodup := by
  unfold uniqueStep
  split_ifs with hmem
  · exact h
  · simp [List.nodup_append, h, hmem]

theorem foldl_uniqueStep_nodup (xs : List String) :
    ∀ acc : List String, acc.Nodup → (xs.foldl uniqueStep acc).Nodup := by
  induction xs with
  | nil => intro acc h; simpa using h
  | cons a rest ih =>
    intro acc h
    rw [List.foldl_cons]
    exact ih _ (uniqueStep_nodup h a)

/-- The loop only ever appends: the accumulator is a prefix of the
result. -/
theorem foldl_uniqueStep_append (xs : List String) :
    ∀ acc : List String, ∃ t, xs.foldl uniqueStep acc = acc ++ t := by
  induction xs with
  | nil => intro acc; exact ⟨[], by simp⟩
  | cons a rest ih =>
    intro acc
    rw [List.foldl_cons]
    obtain ⟨t, ht⟩ := ih (uniqueStep acc a)
    by_cases hmem : a ∈ acc
    · exact ⟨t, by simpa [uniqueStep, hmem] using ht⟩
    · refine ⟨a :: t, ?_⟩
      have hstep : uniqueStep acc a = acc ++ [a] := by
        simp [uniqueStep, hmem]
      rw [hstep] at ht ⊢
      simpa using ht

/-- Anything already in the accumulator ends up strictly before anything
not yet in it. -/
theorem foldl_uniqueStep_indexOf_lt_of_mem_acc (xs : List String)
    (acc : List String) {u v : String} (hu : u ∈ acc) (hv : v ∉ acc) :
    (xs.foldl uniqueStep acc).indexOf u
      < (xs.foldl uniqueStep acc).indexOf v := by
  obtain ⟨t, ht⟩ := foldl_uniqueStep_append xs acc
  rw [ht, List.indexOf_append_of_mem hu, List.indexOf_append_of_not_mem hv]
  calc acc.indexOf u < acc.length := List.indexOf_lt_length.mpr hu
    _ ≤ acc.length + t.indexOf v := Nat.le_add_right _ _

/-- If the first occurrence of `u` precedes the first occurrence of `v`
among the still-unprocessed URLs, and neither is in the accumulator yet,
then `u` lands strictly before `v`. -/
theorem foldl_uniqueStep_indexOf_mono (xs : List String) :
    ∀ (acc : List String) (u v : String), u ∉ acc → v ∉ acc → v ∈ xs →
      xs.indexOf u < xs.indexOf v →
      (xs.foldl uniqueStep acc).indexOf u
        < (xs.foldl uniqueStep acc).indexOf v := by
  induction xs with
  | nil => intro acc u v _ _ hv _; simp at hv
  | cons a rest ih =>
    intro acc u v hu hv hvmem hlt
    rw [List.foldl_cons]
    by_cases hua : a = u
    · subst hua
      have hva : v ≠ a := by
        intro he
        subst he
        simp [List.indexOf_cons_self] at hlt
      have hstep : uniqueStep acc a = acc ++ [a] := by
        simp [uniqueStep, hu]
      rw [hstep]
      apply foldl_uniqueStep_indexOf_lt_of_mem_acc
      · simp
      · simp only [List.mem_append, List.mem_singleton]
        rintro (h | h)
        · exact hv h
        · exact hva h
    · by_cases hva : a = v
      · subst hva
        rw [List.indexOf_cons_self] at hlt
        exact absurd hlt (Nat.not_lt_zero _)
      · rw [List.indexOf_cons_ne _ hua, List.indexOf_cons_ne _ hva] at hlt
        have hlt' : rest.indexOf u < rest.indexOf v := Nat.lt_of_succ_lt_succ hlt
        have hvrest : v ∈ rest := by
          rcases List.mem_cons.mp hvmem with h | h
          · exact absurd h.symm hva
          · exact h
        have hu' : u ∉ uniqueStep acc a := by
          rw [uniqueStep_mem]
          rintro (h | h)
          · exact hu h
          · exact hua h.symm
        have hv' : v ∉ uniqueStep acc a := by
          rw [uniqueStep_mem]
          rintro (h | h)
          · exact hv h
          · exact hva h.symm
        exact ih _ u v hu' hv' hvrest hlt'

theorem uniqueUrls_mem (l : List String) (x : String) :
    x ∈ uniqueUrls l ↔ x ∈ l := by
  rw [uniqueUrls, foldl_uniqueStep_mem]
  simp

theorem uniqueUrls_nodup (l : List String) : (uniqueUrls l).Nodup :=
  foldl_uniqueStep_nodup l [] List.nodup_nil

theorem uniqueUrls_indexOf_lt {l : List String} {u v : String}
    (hv : v ∈ l) (hlt : l.indexOf u < l.indexOf v) :
    (uniqueUrls l).indexOf u < (uniqueUrls l).indexOf v :=
  foldl_uniqueStep_indexOf_mono l [] u v (by simp) (by simp) hv hlt

theorem uniqueUrls_indexOf_iff {l : List String} {u v : String}
    (hu : u ∈ l) (hv : v ∈ l) :
    (uniqueUrls l).indexOf u < (uniqueUrls l).indexOf v
      ↔ l.indexOf u < l.indexOf v := by
  constructor
  · intro hr
    rcases Nat.lt_trichotomy (l.indexOf u) (l.indexOf v) with h | h | h
    · exact h
    · exfalso
      have huv : u = v := (List.indexOf_inj hu hv).mp h
      subst huv
      exact Nat.lt_irrefl _ hr
    · exact absurd (uniqueUrls_indexOf_lt hu h) (Nat.lt_asymm hr)
  · exact uniqueUrls_indexOf_lt hv

/-- C5: the background extraction task commits, under the minted query
identifier, exactly the de-duplicated URL list in first-seen order: the
stored list is `uniqueUrls extracted_urls`, which has no duplicates, has
exactly the URLs of the extracted sequence as members, and orders `u`
before `v` precisely when the first occurrence of `u` precedes the first
occurrence of `v` in the extracted sequence. -/
theorem c5_extraction_commits_unique_ordered (query_id : String)
    (extracted_urls : List String) (s : StorageState) :
    (process_url_extraction query_id extracted_urls s) query_id
      = some (uniqueUrls extracted_urls)
    ∧ (uniqueUrls extracted_urls).Nodup
    ∧ (∀ x, x ∈ uniqueUrls extracted_urls ↔ x ∈ extracted_urls)
    ∧ ∀ u v, u ∈ uniqueUrls extracted_urls → v ∈ uniqueUrls extracted_urls →
        ((uniqueUrls extracted_urls).indexOf u
            < (uniqueUrls extracted_urls).indexOf v
          ↔ extracted_urls.indexOf u < extracted_urls.indexOf v) := by
  refine ⟨?_, uniqueUrls_nodup _, uniqueUrls_mem _, ?_⟩
  · simp [process_url_extraction, store_query]
  · intro u v hu hv
    exact uniqueUrls_indexOf_iff ((uniqueUrls_mem _ _).mp hu)
      ((uniqueUrls_mem _ _).mp hv)

/-- Witness for C5 at a concrete extracted sequence with duplicates. -/
theorem c5_extraction_commits_unique_ordered_witness :
    (process_url_extraction "q1" ["b", "a", "b", "c", "a"] emptyStorage) "q1"
      = some (uniqueUrls ["b", "a", "b", "c", "a"])
    ∧ (uniqueUrls ["b", "a", "b", "c", "a"]).Nodup
    ∧ (∀ x, x ∈ uniqueUrls ["b", "a", "b", "c", "a"]
          ↔ x ∈ ["b", "a", "b", "c", "a"])
    ∧ ∀ u v, u ∈ uniqueUrls ["b", "a", "b", "c", "a"] →
        v ∈ uniqueUrls ["b", "a", "b", "c", "a"] →
        ((uniqueUrls ["b", "a", "b", "c", "a"]).indexOf u
            < (uniqueUrls ["b", "a", "b", "c", "a"]).indexOf v
          ↔ (["b", "a", "b", "c", "a"] : List String).indexOf u
              < (["b", "a", "b", "c", "a"] : List String).indexOf v) :=
  c5_extraction_commits_unique_ordered "q1" ["b", "a", "b", "c", "a"]
    emptyStorage

/-! ### Scrape-pipeline lemmas for C3, C6, C7, C8 -/

theorem scrapeLoop_fst (website_name : String) (total : Nat)
    (scrape_link : String → Except String String) :
    ∀ (items : List String) (i : Nat) (d : List (String × String)),
      (scrapeLoop website_name total scrape_link i d items).1
        = pageLines website_name total scrape_link i items := by
  intro items
  induction items with
  | nil => intro i d; rfl
  | cons a rest ih =>
    intro i d
    simp only [scrapeLoop, pageLines]
    cases h : scrape_link (qualifyItem website_name a) <;> simp [h, ih]

theorem scrapeLoop_snd (website_name : String) (total : Nat)
    (scrape_link : String → Except String String) :
    ∀ (items : List String) (i : Nat) (d : List (String × String)),
      (scrapeLoop website_name total scrape_link i d items).2
        = tableOf website_name scrape_link d items := by
  intro items
  induction items with
  | nil => intro i d; rfl
  | cons a rest ih =>
    intro i d
    simp only [scrapeLoop, tableOf]
    cases h : scrape_link (qualifyItem website_name a) <;> simp [h, ih]

theorem pageLines_header_mem (website_name : String) (total : Nat)
    (scrape_link : String → Except String String) :
    ∀ (items : List String) (i j : Nat) (hj : j < items.length),
      headerLine (i + j + 1) total
          (qualifyItem website_name (items.get ⟨j, hj⟩))
        ∈ pageLines website_name total scrape_link i items := by
  intro items
  induction items with
  | nil => intro i j hj; simp at hj
  | cons a rest ih =>
    intro i j hj
    simp only [pageLines]
    cases j with
    | zero =>
      cases h : scrape_link (qualifyItem website_name a) <;> simp [h]
    | succ k =>
      have hk : k < rest.length := Nat.lt_of_succ_lt_succ hj
      have hmem := ih (i + 1) k hk
      have harith : i + 1 + k + 1 = i + (k + 1) + 1 := by omega
      rw [harith] at hmem
      cases h : scrape_link (qualifyItem website_name a) <;>
        simp only [h, List.get_cons_succ] <;>
        exact List.mem_append_right _ hmem

theorem pageLines_fail_mem (website_name : String) (total : Nat)
    (scrape_link : String → Except String String) :
    ∀ (items : List String) (i j : Nat) (hj : j < items.length) (e : String),
      scrape_link (qualifyItem website_name (items.get ⟨j, hj⟩))
          = Except.error e →
      failLine (qualifyItem website_name (items.get ⟨j, hj⟩)) e
        ∈ pageLines website_name total scrape_link i items := by
  intro items
  induction items with
  | nil => intro i j hj; simp at hj
  | cons a rest ih =>
    intro i j hj e hfail
    simp only [pageLines]
    cases j with
    | zero =>
      simp only [List.get] at hfail
      simp [hfail]
    | succ k =>
      have hk : k < rest.length := Nat.lt_of_succ_lt_succ hj
      have hmem := ih (i + 1) k hk e (by simpa using hfail)
      cases h : scrape_link (qualifyItem website_name a) <;>
        simp only [h, List.get_cons_succ] <;>
        exact List.mem_append_right _ hmem

theorem tableOf_eq_filterMap (website_name : String)
    (scrape_link : String → Except String String) :
    ∀ (items : List String) (d : List (String × String)),
      (∀ p ∈ items, qualifyItem website_name p ∉ d.map Prod.fst) →
      (items.map (qualifyItem website_name)).Nodup →
      tableOf website_name scrape_link d items
        = d ++ items.filterMap (fun p =>
            match scrape_link (qualifyItem website_name p) with
            | Except.ok t => some (qualifyItem website_name p, t)
            | Except.error _ => none) := by
  intro items
  induction items with
  | nil => intro d _ _; simp [tableOf]
  | cons a rest ih =>
    intro d hfresh hnodup
    rw [List.map_cons, List.nodup_cons] at hnodup
    cases h : scrape_link (qualifyItem website_name a) with
    | ok t =>
      have hfa : qualifyItem website_name a ∉ d.map Prod.fst :=
        hfresh a (List.mem_cons_self a rest)
      have hins : dictInsert d (qualifyItem website_name a) t
          = d ++ [(qualifyItem website_name a, t)] := by
        simp [dictInsert, hfa]
      have hfresh' : ∀ p ∈ rest, qualifyItem website_name p
          ∉ (d ++ [(qualifyItem website_name a, t)]).map Prod.fst := by
        intro p hp
        simp only [List.map_append, List.mem_append, List.map_cons,
          List.map_nil, List.mem_singleton]
        rintro (hmem | heq)
        · exact hfresh p (List.mem_cons_of_mem a hp) hmem
        · exact hnodup.1 (heq ▸ List.mem_map_of_mem (qualifyItem website_name) hp)
      simp only [tableOf, h]
      rw [hins, ih _ hfresh' hnodup.2]
      simp [h]
    | error e =>
      have hfresh' : ∀ p ∈ rest, qualifyItem website_name p
          ∉ d.map Prod.fst :=
        fun p hp => hfresh p (List.mem_cons_of_mem a hp)
      simp only [tableOf, h]
      rw [ih _ hfresh' hnodup.2]
      simp [h]

/-- For a run with at least one resolved page, the stream is the loop's
lines, then a middle section depending on the persist/reload outcomes,
then the final completion line; the table is the loop's table. -/
theorem scraping_process_nonzero (env : ScrapeEnv)
    (hne : env.pages.length ≠ 0) :
    (scraping_process env).table
        = tableOf (scrapeSiteName env) env.scrape_link [] env.pages
    ∧ ∃ mid, (scraping_process env).stream
        = pageLines (scrapeSiteName env) env.pages.length env.scrape_link 0
            env.pages ++ (mid ++ [finalLine]) := by
  constructor
  · by_cases hs : env.save_to_gcloud <;> by_cases hd : env.download_blob <;>
      simp [scraping_process, hne, hs, hd, scrapeLoop_snd, scrapeSiteName]
  · by_cases hs : env.save_to_gcloud <;> by_cases hd : env.download_blob
    · refine ⟨["Finished saving to GCP Bucket\n",
        "Chunking and preparing documents to insert into vector store.\n"]
        ++ env.store_updates, ?_⟩
      simp [scraping_process, hne, hs, hd, scrapeLoop_fst, scrapeSiteName]
    · refine ⟨["Finished saving to GCP Bucket\n"], ?_⟩
      simp [scraping_process, hne, hs, hd, scrapeLoop_fst, scrapeSiteName]
    · refine ⟨["The scraping process did not complete as expected for "
        ++ sitemapNormalize env.website ++ "\n"], ?_⟩
      simp [scraping_process, hne, hs, hd, scrapeLoop_fst, scrapeSiteName]
    · refine ⟨["The scraping process did not complete as expected for "
        ++ sitemapNormalize env.website ++ "\n"], ?_⟩
      simp [scraping_process, hne, hs, hd, scrapeLoop_fst, scrapeSiteName]

/-- The completion line is the last streamed line of every run, on every
path. -/
theorem scraping_process_last (env : ScrapeEnv) :
    (scraping_process env).stream.getLast? = some finalLine := by
  by_cases h0 : env.pages.length = 0
  · simp [scraping_process, h0]
  · obtain ⟨-, mid, hstream⟩ := scraping_process_nonzero env h0
    rw [hstream, ← List.append_assoc]
    have : (pageLines (scrapeSiteName env) env.pages.length env.scrape_link 0
          env.pages ++ mid) ++ [finalLine]
        = (pageLines (scrapeSiteName env) env.pages.length env.scrape_link 0
          env.pages ++ mid) ++ finalLine :: [] := rfl
    rw [this, List.getLast?_append_cons]
    rfl

/-- C6: when scraping page `k` (0-based) faults with description `e`, the
stream contains that page's failure line including `e`; every page —
before and after `k` — still gets its numbered attempt line; the table
contains exactly the successfully scraped pages (failed ones omitted, not
null-filled); and the final completion line is still last.  The Nodup
hypothesis says the qualified page URLs are pairwise distinct, so the
Python dict accumulates one row per page. -/
theorem c6_page_fault_does_not_abort (env : ScrapeEnv) (k : Nat)
    (hk : k < env.pages.length) (e : String)
    (hfail : env.scrape_link
        (qualifyItem (scrapeSiteName env) (env.pages.get ⟨k, hk⟩))
        = Except.error e)
    (hnodup : (env.pages.map (qualifyItem (scrapeSiteName env))).Nodup) :
    failLine (qualifyItem (scrapeSiteName env) (env.pages.get ⟨k, hk⟩)) e
        ∈ (scraping_process env).stream
    ∧ (∀ j (hj : j < env.pages.length),
        headerLine (j + 1) env.pages.length
            (qualifyItem (scrapeSiteName env) (env.pages.get ⟨j, hj⟩))
          ∈ (scraping_process env).stream)
    ∧ (scraping_process env).table
        = env.pages.filterMap (fun p =>
            match env.scrape_link (qualifyItem (scrapeSiteName env) p) with
            | Except.ok t => some (qualifyItem (scrapeSiteName env) p, t)
            | Except.error _ => none)
    ∧ (scraping_process env).stream.getLast? = some finalLine := by
  have hne : env.pages.length ≠ 0 := by omega
  obtain ⟨htab, mid, hstream⟩ := scraping_process_nonzero env hne
  refine ⟨?_, ?_, ?_, scraping_process_last env⟩
  · rw [hstream]
    exact List.mem_append_left _
      (pageLines_fail_mem _ _ _ env.pages 0 k hk e hfail)
  · intro j hj
    rw [hstream]
    refine List.mem_append_left _ ?_
    have hmem := pageLines_header_mem (scrapeSiteName env) env.pages.length
      env.scrape_link env.pages 0 j hj
    simpa using hmem
  · rw [htab]
    exact tableOf_eq_filterMap _ _ env.pages [] (by simp) hnodup

/-- Witness for C6: the spec's own scenario — three pages, page 2 faults;
pages 1 and 3 are scraped, all three attempt lines and the failure line
are streamed, and the completion line is last. -/
theorem c6_page_fault_does_not_abort_witness :
    failLine (qualifyItem (scrapeSiteName envThreePages)
        (envThreePages.pages.get ⟨1, by decide⟩)) "boom"
        ∈ (scraping_process envThreePages).stream
    ∧ (∀ j (hj : j < envThreePages.pages.length),
        headerLine (j + 1) envThreePages.pages.length
            (qualifyItem (scrapeSiteName envThreePages)
              (envThreePages.pages.get ⟨j, hj⟩))
          ∈ (scraping_process envThreePages).stream)
    ∧ (scraping_process envThreePages).table
        = envThreePages.pages.filterMap (fun p =>
            match envThreePages.scrape_link
                (qualifyItem (scrapeSiteName envThreePages) p) with
            | Except.ok t =>
                some (qualifyItem (scrapeSiteName envThreePages) p, t)
            | Except.error _ => none)
    ∧ (scraping_process envThreePages).stream.getLast? = some finalLine :=
  c6_page_fault_does_not_abort envThreePages 1 (by decide) "boom" (by rfl)
    (by decide)

/-- C7: a persist failure yields the terminal failure line naming the
sitemap and ingestion is not attempted; ingestion happens only when both
the persist and the reload succeeded; and the final completion line is
the last streamed line on every path, failure paths and the zero-page
path included. -/
theorem c7_persist_failure_terminal_and_final_line (env : ScrapeEnv) :
    (env.pages.length ≠ 0 → env.save_to_gcloud = false →
      ("The scraping process did not complete as expected for "
          ++ sitemapNormalize env.website ++ "\n")
        ∈ (scraping_process env).stream
      ∧ (scraping_process env).ingestCalled = false)
    ∧ ((scraping_process env).ingestCalled = true
        → env.save_to_gcloud = true ∧ env.download_blob = true)
    ∧ (scraping_process env).stream.getLast? = some finalLine := by
  refine ⟨?_, ?_, scraping_process_last env⟩
  · intro hne hsave
    constructor
    · simp [scraping_process, hne, hsave]
    · simp [scraping_process, hne, hsave]
  · intro hingest
    by_cases h0 : env.pages.length = 0
    · simp [scraping_process, h0] at hingest
    · by_cases hs : env.save_to_gcloud <;> by_cases hd : env.download_blob <;>
        simp [scraping_process, h0, hs, hd] at hingest ⊢

/-- Witness for C7: a concrete run whose persist fails. -/
theorem c7_persist_failure_terminal_and_final_line_witness :
    ("The scraping process did not complete as expected for "
        ++ sitemapNormalize envPersistFail.website ++ "\n")
      ∈ (scraping_process envPersistFail).stream
    ∧ (scraping_process envPersistFail).ingestCalled = false
    ∧ (scraping_process envPersistFail).stream.getLast? = some finalLine := by
  have h := c7_persist_failure_terminal_and_final_line envPersistFail
  have h1 := h.1 (by decide) (by rfl)
  exact ⟨h1.1, h1.2, h.2.2⟩

/-- C8: a run with zero resolved pages streams exactly the "0 pages"
notice followed by the completion line, terminates successfully, and
makes no persist, reload or ingestion call. -/
theorem c8_zero_pages_short_circuit (env : ScrapeEnv)
    (h : env.pages = []) :
    (scraping_process env).stream
      = ["Found 0 pages to scrape in " ++ sitemapNormalize env.website
          ++ "\n", finalLine]
    ∧ (scraping_process env).persistCalled = false
    ∧ (scraping_process env).downloadCalled = false
    ∧ (scraping_process env).ingestCalled = false := by
  refine ⟨?_, ?_, ?_, ?_⟩ <;> simp [scraping_process, h]

/-- Witness for C8: a concrete zero-page run. -/
theorem c8_zero_pages_short_circuit_witness :
    (scraping_process envZeroPages).stream
      = ["Found 0 pages to scrape in "
          ++ sitemapNormalize envZeroPages.website ++ "\n", finalLine]
    ∧ (scraping_process envZeroPages).persistCalled = false
    ∧ (scraping_process envZeroPages).downloadCalled = false
    ∧ (scraping_process envZeroPages).ingestCalled = false :=
  c8_zero_pages_short_circuit envZeroPages rfl

/-- C3 (counterexample): a concrete run where persist succeeds and reload
fails.  The streamed lines are exactly the page header, the
persist-success notice and the completion line — the stream contains no
notice about the reload failure (in particular not the text the source
`print`s to the server log); the claim's assertion that the progress
stream contains a reload-failure error notice is false.  No ingestion is
attempted. -/
theorem c3_counterexample_reload_error_not_streamed :
    (scraping_process envReloadFail).stream
      = ["1 of 1: https://a.com/x\n", "Finished saving to GCP Bucket\n",
         finalLine]
    ∧ "Error occured while downloading file to gcloud bucket.\n"
        ∉ (scraping_process envReloadFail).stream
    ∧ (scraping_process envReloadFail).log
        = ["Error occured while downloading file to gcloud bucket.\n"]
    ∧ (scraping_process envReloadFail).ingestCalled = false := by
  refine ⟨by decide, by decide, by decide, by decide⟩

/-- C3 (amended): on a reload failure after a successful persist, the
error notice goes only to the server log (a `print`); the progress stream
is the page-loop lines, the persist-success line and the completion line,
with no reload-error notice; and no ingestion into the vector store is
attempted. -/
theorem c3_reload_failure_logged_not_streamed (env : ScrapeEnv)
    (hne : env.pages.length ≠ 0) (hsave : env.save_to_gcloud = true)
    (hdl : env.download_blob = false) :
    (scraping_process env).stream
      = pageLines (scrapeSiteName env) env.pages.length env.scrape_link 0
          env.pages ++ ["Finished saving to GCP Bucket\n", finalLine]
    ∧ (scraping_process env).log
        = ["Error occured while downloading file to gcloud bucket.\n"]
    ∧ (scraping_process env).ingestCalled = false := by
  refine ⟨?_, ?_, ?_⟩ <;>
    simp [scraping_process, hne, hsave, hdl, scrapeLoop_fst, scrapeSiteName]

/-- Witness for the amended C3 at the concrete reload-failure run. -/
theorem c3_reload_failure_logged_not_streamed_witness :
    (scraping_process envReloadFail).stream
      = pageLines (scrapeSiteName envReloadFail) envReloadFail.pages.length
          envReloadFail.scrape_link 0 envReloadFail.pages
        ++ ["Finished saving to GCP Bucket\n", finalLine]
    ∧ (scraping_process envReloadFail).log
        = ["Error occured while downloading file to gcloud bucket.\n"]
    ∧ (scraping_process envReloadFail).ingestCalled = false :=
  c3_reload_failure_logged_not_streamed envReloadFail (by decide) (by rfl)
    (by rfl)

/-! ### Token-forwarding lemmas for C9 -/

/-- The forwarding loop consumes a token-only prefix completely, emitting
its truthy tokens in order, then continues with the remaining events. -/
theorem process_streaming_append_tokens (tokens : List (Option String)) :
    ∀ evs : List StreamEvent,
      process_streaming_response (tokens.map StreamEvent.token ++ evs)
        = truthyTokens tokens ++ process_streaming_response evs := by
  induction tokens with
  | nil => intro evs; simp [truthyTokens]
  | cons t rest ih =>
    intro evs
    cases t with
    | none =>
      simp [process_streaming_response, truthyTokens, ih evs]
    | some s =>
      by_cases hs : s = "" <;>
        simp [process_streaming_response, truthyTokens, hs, ih evs]

/-- C9: the forwarding generator emits exactly the non-empty, non-null
tokens of the produced sequence, in production order; and when the
producing iteration is cut by a cancellation after some prefix of tokens,
the generator returns that prefix's truthy tokens and terminates — the
result type is a plain list, i.e. cancellation never surfaces as an
error. -/
theorem c9_forward_truthy_tokens_and_cancel (tokens : List (Option String))
    (post : List StreamEvent) :
    process_streaming_response (tokens.map StreamEvent.token)
      = truthyTokens tokens
    ∧ process_streaming_response
        (tokens.map StreamEvent.token ++ StreamEvent.cancelled :: post)
      = truthyTokens tokens := by
  constructor
  · have h := process_streaming_append_tokens tokens []
    simpa [process_streaming_response] using h
  · have h := process_streaming_append_tokens tokens
      (StreamEvent.cancelled :: post)
    simpa [process_streaming_response] using h

/-- Every outcome of `check_required` is either success or a 400-class
`HTTPException` naming a missing field (helper for C10). -/
theorem checkLoop_ok_or_400 (data : List (String × String)) :
    ∀ keys : List String,
      checkLoop data keys = Except.ok ()
      ∨ ∃ key, checkLoop data keys
          = Except.error (RequestFault.httpException 400
              ("Missing required field: '" ++ key ++ "'")) := by
  intro keys
  induction keys with
  | nil => exact Or.inl rfl
  | cons k rest ih =>
    by_cases h : pyTruthy (data.lookup k)
    · rcases ih with hok | ⟨key, herr⟩
      · exact Or.inl (by simp [checkLoop, h, hok])
      · exact Or.inr ⟨key, by simp [checkLoop, h, herr]⟩
    · exact Or.inr ⟨k, by simp [checkLoop, h]⟩

/-- C10: the scrape endpoint performs no request-body validation: when
the body lacks the `text` field, the request phase fails with the
unhandled `TypeError` raised by `"https://" not in None` — a server
error, never the 400-class `HTTPException` that `check_required` (used by
the query endpoint) produces; `check_required` itself can only return
success or a 400-class fault naming the missing field. -/
theorem c10_scrape_missing_text_type_error (data : List (String × String))
    (h : data.lookup "text" = none) :
    scrape_sitemap_request data
      = Except.error (RequestFault.typeError
          "argument of type 'NoneType' is not iterable")
    ∧ (∀ st detail, scrape_sitemap_request data
        ≠ Except.error (RequestFault.httpException st detail))
    ∧ ∀ (d : List (String × String)) (keys : List String),
        check_required d keys = Except.ok ()
        ∨ ∃ key, check_required d keys
            = Except.error (RequestFault.httpException 400
                ("Missing required field: '" ++ key ++ "'")) := by
  refine ⟨?_, ?_, ?_⟩
  · simp [scrape_sitemap_request, h]
  · intro st detail
    simp [scrape_sitemap_request, h]
  · intro d keys
    rcases checkLoop_ok_or_400 d keys with hok | ⟨key, herr⟩
    · exact Or.inl (by simp [check_required, hok])
    · exact Or.inr ⟨key, by simp [check_required, herr]⟩

/-- Witness for C10: the empty request body. -/
theorem c10_scrape_missing_text_type_error_witness :
    scrape_sitemap_request []
      = Except.error (RequestFault.typeError
          "argument of type 'NoneType' is not iterable")
    ∧ (∀ st detail, scrape_sitemap_request []
        ≠ Except.error (RequestFault.httpException st detail))
    ∧ ∀ (d : List (String × String)) (keys : List String),
        check_required d keys = Except.ok ()
        ∨ ∃ key, check_required d keys
            = Except.error (RequestFault.httpException 400
                ("Missing required field: '" ++ key ++ "'")) :=
  c10_scrape_missing_text_type_error [] rfl

end RagService
